import Mathlib

/-!
Shallow embedding of `cozepy/auth/__init__.py`: the OAuth 2.0 client-side
authentication module (token, JWT-bearer and PKCE flows) of the coze-py SDK.

Python values that may be `None` are embedded as `Option`; dynamically typed
arguments (which the source checks with `isinstance`) are embedded as the sum
type `PyVal`; a constructor whose `assert` fails is embedded as a function
returning `none` (the `AssertionError` is raised synchronously inside
`__init__`).  The network is an oracle: the token an exchange would return is
passed in as an argument, and each operation reports how many exchanges it
performed.
-/

namespace Cozepy

/-- A dynamically typed Python value, as far as the module's `isinstance`
checks discriminate: a `str`, an `int`, or anything else (`None`, a list, …). -/
inductive PyVal where
  | pyStr (s : String)
  | pyInt (n : Int)
  | pyOther
deriving DecidableEq

/-- The `OAuthToken` response model (src/cozepy/auth/__init__.py lines 14-22):
fields `access_token : str`, `expires_in : int` (used as an absolute UNIX
timestamp), `refresh_token : str = ""`, `token_type : str = ""`. -/
structure OAuthToken where
  access_token : String
  expires_in : Int
  refresh_token : String := ""
  token_type : String := ""
deriving DecidableEq

/-- Modelled from the spec: the pydantic validation `CozeModel` (from
`cozepy/model.py`, not under src/) performs when an `OAuthToken` is parsed
from a response body.  Each field declared at src lines 14-22 is checked for
presence and declared type only; the optional fields default to `""`.  A
`none` result is a validation error.  This helper reads one optional `str`
field whose declared default is `""`. -/
def strFieldDefault : Option PyVal → Option String
  | some (.pyStr s) => some s
  | none => some ""
  | _ => none

/-- Modelled from the spec: validation of the whole `OAuthToken` model as
pydantic performs it for the declaration at src lines 14-22 — the two
required fields must be present with their declared types; the two optional
`str` fields default to `""` when absent.  Nothing restricts `access_token`
beyond its type. -/
def OAuthToken.parse (fields : String → Option PyVal) : Option OAuthToken :=
  match fields "access_token", fields "expires_in",
      strFieldDefault (fields "refresh_token"),
      strFieldDefault (fields "token_type") with
  | some (.pyStr a), some (.pyInt e), some rt, some tt =>
    some { access_token := a, expires_in := e, refresh_token := rt, token_type := tt }
  | _, _, _, _ => none

/-- An HTTP header mapping (a Python `dict`), as a partial map from header
names to values. -/
abbrev Headers := String → Option String

/-- Python `headers[k] = v`: the mapping after assigning key `k` to `v`. -/
def dictSet (h : Headers) (k v : String) : Headers :=
  fun k2 => if k2 = k then some v else h k2

/-- The concrete body of `Auth.authentication` (src lines 231-238):
`headers["Authorization"] = f"{self.token_type} {self.token}"`, given the
strings the two properties return. -/
def Auth.authentication (token_type token : String) (headers : Headers) : Headers :=
  dictSet headers "Authorization" (token_type ++ " " ++ token)

/-- The state a `TokenAuth` holds after a successful `__init__`: the fixed
token string. -/
structure TokenAuth where
  token : String
deriving DecidableEq

/-- `TokenAuth.__init__` (src lines 246-250): `assert isinstance(token, str)`
then `assert len(token) > 0`; `none` models the `AssertionError`. -/
def TokenAuth.init (token : PyVal) : Option TokenAuth :=
  match token with
  | .pyStr s => if s.length > 0 then some { token := s } else none
  | _ => none

/-- `TokenAuth.token_type` (src lines 252-254): always `"Bearer"`. -/
def TokenAuth.token_type (_ : TokenAuth) : String := "Bearer"

/-- `TokenAuth.authentication`: the inherited `Auth.authentication` with this
variant's `token_type` and `token` properties. -/
def TokenAuth.authentication (a : TokenAuth) (headers : Headers) : Headers :=
  Auth.authentication (TokenAuth.token_type a) a.token headers

/-- The state a `JWTAuth` holds after a successful `__init__` (src lines
266-285): the constructor arguments plus the cache cell `_token = None`; the
owned `JWTOAuthApp` is determined by `client_id`, `private_key`,
`public_key_id` and `base_url`. -/
structure JWTAuthState where
  client_id : String
  private_key : String
  public_key_id : String
  ttl : Int
  base_url : String
  cached : Option OAuthToken
deriving DecidableEq

/-- `JWTAuth.__init__` (src lines 266-285): six `assert`s — the four string
arguments are `str`, `ttl` is an `int` and `ttl > 0`; `none` models the
`AssertionError`.  On success `_token` starts out `None`. -/
def JWTAuth.init (client_id private_key public_key_id ttl base_url : PyVal) :
    Option JWTAuthState :=
  match client_id, private_key, public_key_id, ttl, base_url with
  | .pyStr c, .pyStr pk, .pyStr kid, .pyInt t, .pyStr b =>
    if t > 0 then
      some { client_id := c, private_key := pk, public_key_id := kid, ttl := t,
             base_url := b, cached := none }
    else none
  | _, _, _, _, _ => none

/-- `JWTAuth._generate_token` (src lines 296-300) as a step function.
`cached` is the `_token` cell, `now` is `int(time.time())`, and `fresh` is
the `OAuthToken` the network oracle returns if
`self._oauth_cli.get_access_token(self._ttl)` is called.  The result is
(the token returned, the `_token` cell afterwards, how many
`get_access_token` exchanges the call performed). -/
def JWTAuth.generateToken (cached : Option OAuthToken) (now : Int)
    (fresh : OAuthToken) : OAuthToken × Option OAuthToken × Nat :=
  match cached with
  | some t => if now < t.expires_in then (t, some t, 0) else (fresh, some fresh, 1)
  | none => (fresh, some fresh, 1)

/-- `JWTAuth.authentication`: `Auth.authentication` where `self.token` runs
`_generate_token` and returns its `access_token` (src lines 291-294).  Result:
(the headers afterwards, the `_token` cell afterwards, exchanges performed). -/
def JWTAuth.authenticationEff (cached : Option OAuthToken) (now : Int)
    (fresh : OAuthToken) (headers : Headers) : Headers × Option OAuthToken × Nat :=
  let r := JWTAuth.generateToken cached now fresh
  (Auth.authentication "Bearer" r.1.access_token headers, r.2.1, r.2.2)

/-- Modelled from the spec: UTF-8 encoding of one character (Python encodes a
`str` to UTF-8 bytes before percent-quoting it; the encoder is the stdlib,
outside this repository).  Standard 1-4 byte UTF-8. -/
def utf8Bytes (c : Char) : List Nat :=
  let n := c.toNat
  if n < 128 then [n]
  else if n < 2048 then [192 + n / 64, 128 + n % 64]
  else if n < 65536 then [224 + n / 4096, 128 + (n / 64) % 64, 128 + n % 64]
  else [240 + n / 262144, 128 + (n / 4096) % 64, 128 + (n / 64) % 64, 128 + n % 64]

/-- The uppercase hexadecimal digit for `n < 16`, as `urllib.parse.quote`
emits it. -/
def hexUpperDigit (n : Nat) : Char :=
  if n < 10 then Char.ofNat (48 + n) else Char.ofNat (55 + n)

/-- The bytes `urllib.parse.quote_plus` leaves unquoted with its default
`safe=''`: ASCII letters, digits, and `_ . - ~`. -/
def isQuoteSafeByte (n : Nat) : Bool :=
  (48 ≤ n && n ≤ 57) || (65 ≤ n && n ≤ 90) || (97 ≤ n && n ≤ 122)
    || n = 95 || n = 46 || n = 45 || n = 126

/-- How `quote_plus` renders one UTF-8 byte: safe bytes stand for themselves,
a space becomes `+`, every other byte becomes `%` and two uppercase hex
digits. -/
def quotePlusByte (n : Nat) : List Char :=
  if isQuoteSafeByte n then [Char.ofNat n]
  else if n = 32 then ['+']
  else ['%', hexUpperDigit (n / 16), hexUpperDigit (n % 16)]

/-- Modelled from the spec: `urllib.parse.quote_plus` with the default
`safe=''` (the stdlib percent-encoder the source applies to every query
parameter value; "All parameter values must be percent-encoded"). -/
def quote_plus (s : String) : String :=
  String.mk (((s.data.flatMap utf8Bytes).flatMap quotePlusByte))

/-- Python truthiness of a `str`-or-`None` value: `None` and `""` are falsy. -/
def strTruthy : Option String → Bool
  | none => false
  | some s => !(s == "")

/-- One step of Python `str.replace` on character lists, fuelled so that the
recursion is structural: at each position, a match of `pat` is replaced by
`rep` and scanning resumes after it, otherwise one character is kept.  The
fuel only needs to cover the length of the scanned list. -/
def pyReplaceAux (pat rep : List Char) : Nat → List Char → List Char
  | _, [] => []
  | 0, l => l
  | fuel + 1, c :: rest =>
    if pat ≠ [] ∧ pat.isPrefixOf (c :: rest) then
      rep ++ pyReplaceAux pat rep fuel ((c :: rest).drop pat.length)
    else
      c :: pyReplaceAux pat rep fuel rest

/-- Python `s.replace(pat, rep)` for a non-empty `pat`: every non-overlapping
occurrence, left to right. -/
def pyReplace (s pat rep : String) : String :=
  String.mk (pyReplaceAux pat.data rep.data s.data.length s.data)

/-- Modelled from the spec: `COZE_COM_BASE_URL` from `cozepy/config.py` (not
under src/), one of the "two known fixed hosts"; the spec's §8 example uses
`base_url="https://api.coze.com"`. -/
def COZE_COM_BASE_URL : String := "https://api.coze.com"

/-- Modelled from the spec: `COZE_CN_BASE_URL` from `cozepy/config.py` (not
under src/), the other of the "two known fixed hosts". -/
def COZE_CN_BASE_URL : String := "https://api.coze.cn"

/-- Modelled from the spec: `urlparse(base_url).netloc` (Python stdlib) —
the host component of an absolute URL: what follows `//` up to the next
`/`. -/
def urlparseNetloc (url : String) : String :=
  match url.splitOn "//" with
  | _ :: after :: _ => ((after.splitOn "/").headD "")
  | _ => ""

/-- The state an `OAuthApp` holds (src lines 42-48): `client_id`, `base_url`
and `www_base_url` (`""` when not supplied). -/
structure OAuthApp where
  client_id : String
  base_url : String
  www_base_url : String
deriving DecidableEq

/-- `OAuthApp._get_www_base_url` (src lines 81-87): the explicit
`www_base_url` when truthy, else `base_url.replace("api", "www")` when
`base_url` is one of the two fixed hosts, else `base_url` unchanged. -/
def OAuthApp.getWwwBaseUrl (app : OAuthApp) : String :=
  if strTruthy (some app.www_base_url) then app.www_base_url
  else if app.base_url = COZE_CN_BASE_URL ∨ app.base_url = COZE_COM_BASE_URL then
    pyReplace app.base_url "api" "www"
  else app.base_url

/-- One `f"{k}={quote_plus(v)}"` item of the query string; `none` models the
`TypeError` Python's `quote_plus` raises on a `None` value. -/
def encodeParam : String × Option String → Option String
  | (k, some v) => some (k ++ "=" ++ quote_plus v)
  | (_, none) => none

/-- `OAuthApp._get_oauth_url` (src lines 50-70).  `params` is the dict in
insertion order; `code_challenge` and `code_challenge_method` join it only
when `code_challenge` is truthy; the `workspace_id` path variant is chosen
when `workspace_id` is truthy; the query string joins `k=quote_plus(v)` with
`&`.  `none` models a `TypeError` from `quote_plus(None)`. -/
def OAuthApp.getOauthUrl (app : OAuthApp) (redirect_uri state : String)
    (code_challenge code_challenge_method workspace_id : Option String) :
    Option String :=
  let params : List (String × Option String) :=
    [("response_type", some "code"), ("client_id", some app.client_id),
     ("redirect_uri", some redirect_uri), ("state", some state)]
    ++ (if strTruthy code_challenge then
          [("code_challenge", code_challenge),
           ("code_challenge_method", code_challenge_method)]
        else [])
  let uri :=
    if strTruthy workspace_id then
      OAuthApp.getWwwBaseUrl app ++ "/api/permission/oauth2/workspace_id/"
        ++ workspace_id.getD "" ++ "/authorize"
    else
      OAuthApp.getWwwBaseUrl app ++ "/api/permission/oauth2/authorize"
  (params.mapM encodeParam).map (fun qs => uri ++ "?" ++ String.intercalate "&" qs)

/-- `PKCEOAuthApp.get_oauth_url` (src lines 151-179).  `genS256` stands for
the collaborator `gen_s256_code_challenge` from `cozepy/util.py` (not under
src/; per the spec it computes `base64url(sha256(code_verifier))`), kept
abstract: the challenge is `code_verifier` verbatim for method `"plain"`,
else `genS256 code_verifier`. -/
def PKCEOAuthApp.getOauthUrl (app : OAuthApp) (genS256 : String → String)
    (redirect_uri state code_verifier : String) (code_challenge_method : String)
    (workspace_id : Option String) : Option String :=
  let code_challenge :=
    if code_challenge_method = "plain" then code_verifier
    else genS256 code_verifier
  OAuthApp.getOauthUrl app redirect_uri state (some code_challenge)
    (some code_challenge_method) workspace_id

/-- The JWT assertion header `_gen_jwt` builds (src line 125):
`{"alg": "RS256", "typ": "JWT", "kid": kid}`. -/
structure JwtHeader where
  alg : String
  typ : String
  kid : String
deriving DecidableEq

/-- The JWT assertion payload `_gen_jwt` builds (src lines 126-132). -/
structure JwtPayload where
  iss : String
  aud : String
  iat : Int
  exp : Int
  jti : String
deriving DecidableEq

/-- The state a `JWTOAuthApp` holds (src lines 95-108). -/
structure JWTOAuthApp where
  client_id : String
  base_url : String
  api_endpoint : String
  private_key : String
  public_key_id : String
deriving DecidableEq

/-- `JWTOAuthApp.__init__` (src lines 95-108): stores the arguments and
derives `api_endpoint = urlparse(base_url).netloc`. -/
def JWTOAuthApp.init (client_id private_key public_key_id base_url : String) :
    JWTOAuthApp :=
  { client_id := client_id, base_url := base_url,
    api_endpoint := urlparseNetloc base_url,
    private_key := private_key, public_key_id := public_key_id }

/-- `JWTOAuthApp._gen_jwt` (src lines 123-134) up to the signing collaborator
`authlib.jose.jwt.encode`: the header and payload that get signed.  `now` is
`int(time.time())` and `jti` the 16-byte random hex nonce from `random_hex`
(a collaborator, passed in as an oracle). -/
def JWTOAuthApp.genJwt (api_endpoint private_key client_id kid : String)
    (ttl : Int) (now : Int) (jti : String) : JwtHeader × JwtPayload :=
  ({ alg := "RS256", typ := "JWT", kid := kid },
   { iss := client_id, aud := api_endpoint, iat := now, exp := now + ttl, jti := jti })

/-- The observable content of the POST `JWTOAuthApp.get_access_token` sends:
the URL, the JWT assertion carried as the Bearer credential (header and
payload, pre-signing), and the form body. -/
structure JwtTokenRequest where
  url : String
  assertionHeader : JwtHeader
  assertionPayload : JwtPayload
  duration_seconds : Int
  grant_type : String
deriving DecidableEq

/-- `JWTOAuthApp.get_access_token(ttl)` (src lines 110-121): signs a JWT built
by `_gen_jwt(..., 3600)` — the `3600` is hardcoded at the call site — and
POSTs `{"duration_seconds": ttl, "grant_type": "urn:ietf:params:oauth:grant-type:jwt-bearer"}`
to `{base_url}/api/permission/oauth2/token`. -/
def JWTOAuthApp.getAccessToken (app : JWTOAuthApp) (ttl : Int) (now : Int)
    (jti : String) : JwtTokenRequest :=
  let hp := JWTOAuthApp.genJwt app.api_endpoint app.private_key app.client_id
    app.public_key_id 3600 now jti
  { url := app.base_url ++ "/api/permission/oauth2/token",
    assertionHeader := hp.1,
    assertionPayload := hp.2,
    duration_seconds := ttl,
    grant_type := "urn:ietf:params:oauth:grant-type:jwt-bearer" }

/-- Recogniser for a percent-encoded string: every character is either a
quote-safe byte or `+`, except that `%` must head exactly two uppercase hex
digits. -/
def isHexUpper (c : Char) : Bool :=
  (48 ≤ c.toNat && c.toNat ≤ 57) || (65 ≤ c.toNat && c.toNat ≤ 70)

/-- Scan of a character list checking it is a valid `quote_plus` output:
a `%` introduces two uppercase hex digits (tracked by the pending-digit
counter `k`), any other character must be a quote-safe byte or `+`. -/
def percentEncodedChars : Nat → List Char → Bool
  | 0, [] => true
  | _ + 1, [] => false
  | 0, c :: rest =>
    if c.toNat = 37 then percentEncodedChars 2 rest
    else (isQuoteSafeByte c.toNat || c.toNat = 43) && percentEncodedChars 0 rest
  | k + 1, c :: rest => isHexUpper c && percentEncodedChars k rest

/-- A string is percent-encoded when its character scan accepts with no
pending hex digits. -/
def percentEncoded (s : String) : Bool :=
  percentEncodedChars 0 s.data

/-! ### Supporting lemmas -/

/-- A valid character's code point is below 0x110000. -/
lemma char_toNat_lt (c : Char) : c.toNat < 1114112 := by
  rcases c.valid with h | ⟨h1, h2⟩
  · exact h.trans (by norm_num)
  · exact h2

/-- `Char.ofNat` round-trips on code points below the surrogate range. -/
lemma charOfNat_toNat (n : Nat) (h : n < 55296) : (Char.ofNat n).toNat = n := by
  have hv : Nat.isValidChar n := Or.inl h
  simp only [Char.ofNat, hv, dite_true, Char.ofNatAux, Char.toNat]
  exact BitVec.toNat_ofNatLt n _

/-- Every UTF-8 byte of a character is a byte. -/
lemma utf8Bytes_lt (c : Char) : ∀ b ∈ utf8Bytes c, b < 256 := by
  have hc : c.toNat < 1114112 := char_toNat_lt c
  intro b hb
  simp only [utf8Bytes] at hb
  split at hb
  · simp at hb; omega
  · split at hb
    · simp at hb; rcases hb with h | h <;> omega
    · split at hb
      · simp at hb; rcases hb with h | h | h <;> omega
      · simp at hb; rcases hb with h | h | h | h <;> omega

/-- The hex digit of any `k < 16` is an uppercase hex character. -/
lemma isHexUpper_hexUpperDigit : ∀ k < 16, isHexUpper (hexUpperDigit k) = true := by
  decide

/-- The scan absorbs one `quote_plus` byte token. -/
lemma percentEncodedChars_quotePlusByte (b : Nat) (hb : b < 256)
    (rest : List Char) :
    percentEncodedChars 0 (quotePlusByte b ++ rest) = percentEncodedChars 0 rest := by
  unfold quotePlusByte
  split
  next hsafe =>
    have ht : (Char.ofNat b).toNat = b := charOfNat_toNat b (by omega)
    have h37 : ¬ b = 37 := by
      intro h; subst h; simp [isQuoteSafeByte] at hsafe
    simp [percentEncodedChars, ht, h37, hsafe]
  next hsafe =>
    split
    next h32 =>
      subst h32
      simp [percentEncodedChars]
    next h32 =>
      have h1 : isHexUpper (hexUpperDigit (b / 16)) = true :=
        isHexUpper_hexUpperDigit _ (by omega)
      have h2 : isHexUpper (hexUpperDigit (b % 16)) = true :=
        isHexUpper_hexUpperDigit _ (by omega)
      simp [percentEncodedChars, h1, h2]

/-- The scan accepts the rendering of any byte list. -/
lemma percentEncodedChars_quotePlusBytes (bs : List Nat)
    (h : ∀ b ∈ bs, b < 256) :
    percentEncodedChars 0 (bs.flatMap quotePlusByte) = percentEncodedChars 0 [] := by
  induction bs with
  | nil => rfl
  | cons b bs ih =>
    rw [List.flatMap_cons,
      percentEncodedChars_quotePlusByte b (h b (List.mem_cons_self _ _))]
    exact ih (fun x hx => h x (List.mem_cons_of_mem _ hx))

/-- Every output of `quote_plus` is percent-encoded. -/
lemma quote_plus_percentEncoded (s : String) :
    percentEncoded (quote_plus s) = true := by
  show percentEncodedChars 0 ((s.data.flatMap utf8Bytes).flatMap quotePlusByte) = true
  refine percentEncodedChars_quotePlusBytes _ ?_
  intro b hb
  rw [List.mem_flatMap] at hb
  obtain ⟨c, _, hbc⟩ := hb
  exact utf8Bytes_lt c b hbc

/-- Full characterisation of `_get_oauth_url` when both PKCE parameters are
passed (as every caller in src does): the query always succeeds, the path
follows the truthiness of `workspace_id`, the params keep dict insertion
order, the PKCE pair joins only when `code_challenge` is truthy, and every
value is rendered through `quote_plus`. -/
lemma getOauthUrl_eq (app : OAuthApp) (redirect state cc m : String)
    (w : Option String) :
    OAuthApp.getOauthUrl app redirect state (some cc) (some m) w =
      some ((if strTruthy w then
               OAuthApp.getWwwBaseUrl app ++ "/api/permission/oauth2/workspace_id/"
                 ++ w.getD "" ++ "/authorize"
             else OAuthApp.getWwwBaseUrl app ++ "/api/permission/oauth2/authorize")
        ++ "?" ++ String.intercalate "&"
          (["response_type=" ++ quote_plus "code",
            "client_id=" ++ quote_plus app.client_id,
            "redirect_uri=" ++ quote_plus redirect,
            "state=" ++ quote_plus state]
           ++ (if cc = "" then []
               else ["code_challenge=" ++ quote_plus cc,
                     "code_challenge_method=" ++ quote_plus m]))) := by
  unfold OAuthApp.getOauthUrl
  by_cases hcc : cc = ""
  · simp [hcc, strTruthy, List.mapM, List.mapM.loop, encodeParam]
  · simp [hcc, strTruthy, List.mapM, List.mapM.loop, encodeParam]

/-! ### Claim theorems -/

/-- Claim C1: the first `token()` call of a `JWTAuth` triggers exactly one
`get_access_token` exchange and caches its result; a later call made strictly
before the cached token's absolute `expires_in` timestamp triggers zero
additional exchanges and returns the cached `access_token` unchanged; a call
made at or after that timestamp triggers exactly one more exchange and
replaces the cached token. -/
theorem jwtauth_token_caching (t1 t2 : OAuthToken) (n1 n2 n3 : Int)
    (h2 : n2 < t1.expires_in) (h3 : t1.expires_in ≤ n3) :
    JWTAuth.generateToken none n1 t1 = (t1, some t1, 1)
  ∧ JWTAuth.generateToken (JWTAuth.generateToken none n1 t1).2.1 n2 t2 = (t1, some t1, 0)
  ∧ JWTAuth.generateToken (JWTAuth.generateToken none n1 t1).2.1 n3 t2 = (t2, some t2, 1) := by
  refine ⟨rfl, ?_, ?_⟩
  · simp [JWTAuth.generateToken, h2]
  · simp [JWTAuth.generateToken]
    omega

/-- Witness for C1 at a concrete run: first call at time 0 caches a token
expiring at 10, a call at 5 is served from the cache, a call at 10 exchanges
again. -/
theorem jwtauth_token_caching_witness :
    JWTAuth.generateToken none 0 ⟨"a", 10, "", ""⟩
        = (⟨"a", 10, "", ""⟩, some ⟨"a", 10, "", ""⟩, 1)
  ∧ JWTAuth.generateToken (JWTAuth.generateToken none 0 ⟨"a", 10, "", ""⟩).2.1 5 ⟨"b", 20, "", ""⟩
        = (⟨"a", 10, "", ""⟩, some ⟨"a", 10, "", ""⟩, 0)
  ∧ JWTAuth.generateToken (JWTAuth.generateToken none 0 ⟨"a", 10, "", ""⟩).2.1 10 ⟨"b", 20, "", ""⟩
        = (⟨"b", 20, "", ""⟩, some ⟨"b", 20, "", ""⟩, 1) :=
  jwtauth_token_caching ⟨"a", 10, "", ""⟩ ⟨"b", 20, "", ""⟩ 0 5 10 (by decide) (by decide)

/-- Claim C2: for every `JWTOAuthApp.get_access_token(ttl)` call, the signed
assertion's payload satisfies `exp = iat + 3600` independently of `ttl`,
while the POST body carries `duration_seconds = ttl` and the JWT-bearer
grant type. -/
theorem jwt_assertion_exp_and_body (app : JWTOAuthApp) (ttl now : Int) (jti : String) :
    (JWTOAuthApp.getAccessToken app ttl now jti).assertionPayload.exp
        = (JWTOAuthApp.getAccessToken app ttl now jti).assertionPayload.iat + 3600
  ∧ (JWTOAuthApp.getAccessToken app ttl now jti).duration_seconds = ttl
  ∧ (JWTOAuthApp.getAccessToken app ttl now jti).grant_type
        = "urn:ietf:params:oauth:grant-type:jwt-bearer" :=
  ⟨rfl, rfl, rfl⟩

/-- Claim C3: the authorization-URL builder renders every query-parameter
value through `quote_plus` — whose output is always percent-encoded — and
chooses the plain `/api/permission/oauth2/authorize` path when
`workspace_id` is not truthy, and the workspace-scoped variant containing
`workspace_id` exactly when it is. -/
theorem oauth_url_percent_encoding_and_path (app : OAuthApp)
    (redirect state cc m : String) (w : Option String) :
    OAuthApp.getOauthUrl app redirect state (some cc) (some m) w =
      some ((if strTruthy w then
               OAuthApp.getWwwBaseUrl app ++ "/api/permission/oauth2/workspace_id/"
                 ++ w.getD "" ++ "/authorize"
             else OAuthApp.getWwwBaseUrl app ++ "/api/permission/oauth2/authorize")
        ++ "?" ++ String.intercalate "&"
          (["response_type=" ++ quote_plus "code",
            "client_id=" ++ quote_plus app.client_id,
            "redirect_uri=" ++ quote_plus redirect,
            "state=" ++ quote_plus state]
           ++ (if cc = "" then []
               else ["code_challenge=" ++ quote_plus cc,
                     "code_challenge_method=" ++ quote_plus m])))
  ∧ (∀ v : String, percentEncoded (quote_plus v) = true) :=
  ⟨getOauthUrl_eq app redirect state cc m w, fun v => quote_plus_percentEncoded v⟩

/-- Claim C4: the derived www base URL is the explicitly set `www_base_url`
when non-empty; otherwise, for the two recognized fixed hosts it is
`base_url` with `"api"` replaced by `"www"`, and for any other `base_url` it
is `base_url` unchanged. -/
theorem www_base_url_derivation (cid base www : String) :
    OAuthApp.getWwwBaseUrl ⟨cid, base, www⟩ =
      (if www ≠ "" then www
       else if base = "https://api.coze.cn" then "https://www.coze.cn"
       else if base = "https://api.coze.com" then "https://www.coze.com"
       else base) := by
  unfold OAuthApp.getWwwBaseUrl
  by_cases hw : www = ""
  · by_cases h1 : base = "https://api.coze.cn"
    · simp [hw, h1, strTruthy, COZE_CN_BASE_URL, COZE_COM_BASE_URL]
      decide
    · by_cases h2 : base = "https://api.coze.com"
      · simp [hw, h1, h2, strTruthy, COZE_CN_BASE_URL, COZE_COM_BASE_URL]
        decide
      · simp [hw, h1, h2, strTruthy, COZE_CN_BASE_URL, COZE_COM_BASE_URL]
  · simp [hw, strTruthy]

/-- Claim C5: `PKCEOAuthApp.get_oauth_url` passes the code challenge into the
URL as `code_verifier` verbatim for method `"plain"`, and as the collaborator
transform `gen_s256_code_challenge` applied to `code_verifier` for
`"S256"`. -/
theorem pkce_code_challenge_selection (app : OAuthApp) (genS256 : String → String)
    (redirect state verifier : String) (w : Option String)
    (hv : verifier ≠ "") (hs : genS256 verifier ≠ "") :
    PKCEOAuthApp.getOauthUrl app genS256 redirect state verifier "plain" w =
      some ((if strTruthy w then
               OAuthApp.getWwwBaseUrl app ++ "/api/permission/oauth2/workspace_id/"
                 ++ w.getD "" ++ "/authorize"
             else OAuthApp.getWwwBaseUrl app ++ "/api/permission/oauth2/authorize")
        ++ "?" ++ String.intercalate "&"
          ["response_type=" ++ quote_plus "code",
           "client_id=" ++ quote_plus app.client_id,
           "redirect_uri=" ++ quote_plus redirect,
           "state=" ++ quote_plus state,
           "code_challenge=" ++ quote_plus verifier,
           "code_challenge_method=" ++ quote_plus "plain"])
  ∧ PKCEOAuthApp.getOauthUrl app genS256 redirect state verifier "S256" w =
      some ((if strTruthy w then
               OAuthApp.getWwwBaseUrl app ++ "/api/permission/oauth2/workspace_id/"
                 ++ w.getD "" ++ "/authorize"
             else OAuthApp.getWwwBaseUrl app ++ "/api/permission/oauth2/authorize")
        ++ "?" ++ String.intercalate "&"
          ["response_type=" ++ quote_plus "code",
           "client_id=" ++ quote_plus app.client_id,
           "redirect_uri=" ++ quote_plus redirect,
           "state=" ++ quote_plus state,
           "code_challenge=" ++ quote_plus (genS256 verifier),
           "code_challenge_method=" ++ quote_plus "S256"]) := by
  constructor
  · have h := getOauthUrl_eq app redirect state verifier "plain" w
    simp [hv] at h
    simpa [PKCEOAuthApp.getOauthUrl] using h
  · have h := getOauthUrl_eq app redirect state (genS256 verifier) "S256" w
    simp [hs] at h
    simpa [PKCEOAuthApp.getOauthUrl] using h

/-- Witness for C5 at concrete inputs, flattening both URLs to literals. -/
theorem pkce_code_challenge_selection_witness :
    PKCEOAuthApp.getOauthUrl ⟨"c", "b", "w"⟩ (fun _ => "S") "r" "s" "v" "plain" none
      = some "w/api/permission/oauth2/authorize?response_type=code&client_id=c&redirect_uri=r&state=s&code_challenge=v&code_challenge_method=plain"
  ∧ PKCEOAuthApp.getOauthUrl ⟨"c", "b", "w"⟩ (fun _ => "S") "r" "s" "v" "S256" none
      = some "w/api/permission/oauth2/authorize?response_type=code&client_id=c&redirect_uri=r&state=s&code_challenge=S&code_challenge_method=S256" := by
  have h := pkce_code_challenge_selection ⟨"c", "b", "w"⟩ (fun _ => "S") "r" "s" "v" none
    (by decide) (by decide)
  exact ⟨h.1.trans (by decide), h.2.trans (by decide)⟩

/-- Claim C6: a `TokenAuth` built over token `T` sets
`headers["Authorization"] = "Bearer " ++ T` on every `authentication` call,
no matter how many calls came before. -/
theorem token_auth_bearer_header (a : TokenAuth) (h : Headers) (n : Nat) :
    ((TokenAuth.authentication a)^[n + 1] h) "Authorization" = some ("Bearer " ++ a.token) := by
  rw [Function.iterate_succ_apply']
  simp [TokenAuth.authentication, Auth.authentication, TokenAuth.token_type, dictSet]

/-- Claim C7: `TokenAuth` construction succeeds exactly on a non-empty
string, and `JWTAuth` construction succeeds exactly when the four string
arguments are strings and `ttl` is a positive integer; any violation fails
synchronously inside `__init__`. -/
theorem constructor_preconditions (tok c pk kid t b : PyVal) :
    ((TokenAuth.init tok).isSome = true ↔ ∃ s : String, tok = PyVal.pyStr s ∧ s ≠ "")
  ∧ ((JWTAuth.init c pk kid t b).isSome = true ↔
       ((∃ s, c = PyVal.pyStr s) ∧ (∃ s, pk = PyVal.pyStr s) ∧ (∃ s, kid = PyVal.pyStr s)
         ∧ (∃ n : Int, t = PyVal.pyInt n ∧ 0 < n) ∧ (∃ s, b = PyVal.pyStr s))) := by
  constructor
  · cases tok <;> simp [TokenAuth.init]
    case pyStr s =>
      constructor
      · intro h he
        subst he
        simp at h
      · intro h
        cases s with
        | mk l => cases l with
          | nil => exact absurd rfl h
          | cons a as => simp [String.length]
  · cases c <;> cases pk <;> cases kid <;> cases t <;> cases b <;>
      simp [JWTAuth.init]

/-- Claim C8: `authentication(headers)` leaves every key other than
`"Authorization"` unchanged, writes `"{token_type} {token}"` under
`"Authorization"`, and performs no exchange of its own — a `JWTAuth`
authentication performs exactly the exchanges its `token()` call does. -/
theorem authentication_frame (token_type token : String) (h : Headers) (k : String)
    (cached : Option OAuthToken) (now : Int) (fresh : OAuthToken)
    (hk : k ≠ "Authorization") :
    Auth.authentication token_type token h k = h k
  ∧ Auth.authentication token_type token h "Authorization" = some (token_type ++ " " ++ token)
  ∧ (JWTAuth.authenticationEff cached now fresh h).2.2
      = (JWTAuth.generateToken cached now fresh).2.2 := by
  refine ⟨?_, ?_, rfl⟩ <;> simp [Auth.authentication, dictSet, hk]

/-- Witness for C8 at a concrete header key distinct from Authorization. -/
theorem authentication_frame_witness :
    Auth.authentication "Bearer" "t" (fun _ => none) "X" = (fun _ : String => none) "X"
  ∧ Auth.authentication "Bearer" "t" (fun _ => none) "Authorization" = some ("Bearer" ++ " " ++ "t")
  ∧ (JWTAuth.authenticationEff none 0 ⟨"a", 1, "", ""⟩ (fun _ => none)).2.2
      = (JWTAuth.generateToken none 0 ⟨"a", 1, "", ""⟩).2.2 :=
  authentication_frame "Bearer" "t" (fun _ => none) "X" none 0 ⟨"a", 1, "", ""⟩ (by decide)

/-- Counterexample to C9 as stated: an `OAuthToken` whose `access_token` is
the empty string passes the model's validation — nothing in the code
enforces non-emptiness. -/
theorem oauth_token_empty_access_token_accepted :
    OAuthToken.parse (fun k => if k = "access_token" then some (PyVal.pyStr "")
        else if k = "expires_in" then some (PyVal.pyInt 0) else none)
      = some { access_token := "", expires_in := 0 }
  ∧ ({ access_token := "", expires_in := 0 } : OAuthToken).access_token = "" :=
  ⟨rfl, rfl⟩

/-- Claim C9 as amended: an issued `OAuthToken` carries exactly the string
the response gave as `access_token` (its type is enforced, not its
non-emptiness), and an expired cache refresh replaces the cached token with
the newly fetched object rather than mutating the old one. -/
theorem oauth_token_validation_amended (fields : String → Option PyVal)
    (tok : OAuthToken) (t fresh : OAuthToken) (now : Int)
    (hp : OAuthToken.parse fields = some tok)
    (hexp : t.expires_in ≤ now) :
    fields "access_token" = some (PyVal.pyStr tok.access_token)
  ∧ JWTAuth.generateToken (some t) now fresh = (fresh, some fresh, 1) := by
  constructor
  · unfold OAuthToken.parse at hp
    split at hp
    · next a e rt tt ha he hrt htt =>
      injection hp with hp2
      subst hp2
      exact ha
    · exact absurd hp (by simp)
  · simp [JWTAuth.generateToken]
    omega

/-- Witness for the amended C9 at a concrete response and an expired cache. -/
theorem oauth_token_validation_amended_witness :
    (fun k => if k = "access_token" then some (PyVal.pyStr "x")
        else if k = "expires_in" then some (PyVal.pyInt 5) else none) "access_token"
      = some (PyVal.pyStr ({ access_token := "x", expires_in := 5 } : OAuthToken).access_token)
  ∧ JWTAuth.generateToken (some ⟨"a", 3, "", ""⟩) 3 ⟨"b", 9, "", ""⟩
      = (⟨"b", 9, "", ""⟩, some ⟨"b", 9, "", ""⟩, 1) :=
  oauth_token_validation_amended
    (fun k => if k = "access_token" then some (PyVal.pyStr "x")
        else if k = "expires_in" then some (PyVal.pyInt 5) else none)
    { access_token := "x", expires_in := 5 } ⟨"a", 3, "", ""⟩ ⟨"b", 9, "", ""⟩ 3
    (by decide) (by decide)

/-- Claim C10: optional URL parameters are tested by string truthiness — an
empty-string `code_verifier` under method `"plain"` yields a URL with
neither `code_challenge` nor `code_challenge_method`, and an empty-string
`workspace_id` produces exactly the URL of an absent `workspace_id`. -/
theorem optional_param_truthiness (app : OAuthApp) (genS256 : String → String)
    (redirect state verifier m : String) :
    PKCEOAuthApp.getOauthUrl app genS256 redirect state "" "plain" none
      = some (OAuthApp.getWwwBaseUrl app ++ "/api/permission/oauth2/authorize"
        ++ "?" ++ String.intercalate "&"
          ["response_type=" ++ quote_plus "code",
           "client_id=" ++ quote_plus app.client_id,
           "redirect_uri=" ++ quote_plus redirect,
           "state=" ++ quote_plus state])
  ∧ PKCEOAuthApp.getOauthUrl app genS256 redirect state verifier m (some "")
      = PKCEOAuthApp.getOauthUrl app genS256 redirect state verifier m none := by
  constructor
  · have h := getOauthUrl_eq app redirect state "" "plain" none
    simpa [PKCEOAuthApp.getOauthUrl, strTruthy] using h
  · rfl

end Cozepy
